import Mathlib

/-!
Shallow embedding of `src/server.js` (student-AI interaction logging
server): the record normalizer inside `app.post('/log')`, the
`escapeCSV` helper, the CSV export handlers (`/csv`, `/csv/download`)
and the statistics handler (`/stats`).

Modelling conventions:
* The Postgres table `student_interactions` is modelled as a
  `List Record` in insertion order; `ORDER BY timestamp ASC` is an
  insertion sort on the ISO-8601 timestamp string.
* JavaScript `undefined`/`null` on payload fields is `Option`; the
  JS falsy test `!x` / `x || d` on string-typed fields treats `none`
  and `""` as falsy, on number fields `none` and `0`, on array fields
  only `none` (an empty JS array is truthy).
* `JSON.stringify` on an `analysis` payload is modelled by
  `stringifyAnalysis` with a fixed field order (riskLevel, flags,
  wordCount), matching JS object insertion order of typical payloads;
  only its value on a missing analysis (`"{}"`) is load-bearing.
* JS `String.prototype.substring(0, n)` is `List.take n` on `.data`.
-/

namespace StudentLog

/-- Optional `student` object of the POST /log payload. -/
structure Student where
  name : Option String
  className : Option String
  deriving Repr, DecidableEq

/-- Optional `analysis` object of the POST /log payload. -/
structure Analysis where
  riskLevel : Option String
  flags : Option (List String)
  wordCount : Option Int
  deriving Repr, DecidableEq

/-- The JSON body accepted by `app.post('/log')` (src/server.js:96). -/
structure Payload where
  sessionId : Option String
  timestamp : Option String
  student : Option Student
  questionNumber : Option Int
  type : Option String
  question : Option String
  response : Option String
  category : Option String
  analysis : Option Analysis
  deriving Repr, DecidableEq

/-- A row of the `student_interactions` table, with the columns filled by
the INSERT at src/server.js:108-131 (`id` and `created_at` are generated
by the database and unused by the claims). `analysis_details` holds the
serialized JSON text that the JSONB column stores and the export
re-emits. -/
structure Record where
  timestamp : String
  session_id : String
  student_name : String
  class_name : String
  question_number : Option Int
  interaction_type : Option String
  question : String
  ai_response : String
  category : String
  risk_level : String
  flags : List String
  word_count : Option Int
  analysis_details : String
  deriving Repr, DecidableEq

/-- JS falsy test on an optional string field: `!x` is true exactly when
`x` is `undefined`/`null` or the empty string. -/
def isFalsyStr : Option String → Bool
  | none => true
  | some s => s = ""

/-- JS `x || d` on an optional string field. -/
def jsOrStr (v : Option String) (d : String) : String :=
  match v with
  | none => d
  | some s => if s = "" then d else s

/-- JS `x || null` on an optional number field: `0` is falsy, so a
present zero collapses to `null`. -/
def jsOrNullInt : Option Int → Option Int
  | none => none
  | some n => if n = 0 then none else some n

/-- JSON string escaping for `JSON.stringify` of string values. -/
def jsonEscapeChar (c : Char) : List Char :=
  if c = '"' then ['\\', '"']
  else if c = '\\' then ['\\', '\\']
  else if c = '\n' then ['\\', 'n']
  else if c = '\r' then ['\\', 'r']
  else if c = '\t' then ['\\', 't']
  else [c]

/-- Model of `JSON.stringify` applied to a string value. -/
def jsonString (s : String) : String :=
  "\"" ++ String.mk (s.data.flatMap jsonEscapeChar) ++ "\""

/-- Model of `JSON.stringify(logEntry.analysis || {})`
(src/server.js:130): a missing analysis serializes to `"{}"`; a present
one serializes its present fields in a fixed order. -/
def stringifyAnalysis : Option Analysis → String
  | none => "{}"
  | some a =>
      let fields :=
        (match a.riskLevel with
         | some r => ["\"riskLevel\":" ++ jsonString r]
         | none => []) ++
        (match a.flags with
         | some fs => ["\"flags\":[" ++ String.intercalate "," (fs.map jsonString) ++ "]"]
         | none => []) ++
        (match a.wordCount with
         | some n => ["\"wordCount\":" ++ toString n]
         | none => [])
      "\x7b" ++ String.intercalate "," fields ++ "\x7d"

/-- Model of `str.replace(/"/g, '""')` (src/server.js:67): every
double-quote character becomes two. -/
def doubleQuotes : List Char → List Char
  | [] => []
  | c :: rest =>
      if c = '"' then '"' :: '"' :: doubleQuotes rest
      else c :: doubleQuotes rest

/-- The helper `escapeCSV` (src/server.js:62-70). The argument is the already
`String(...)`-stringified field value, `none` standing for
`null`/`undefined`. -/
def escapeCSV (value : Option String) : String :=
  match value with
  | none => ""
  | some str =>
      if ',' ∈ str.data ∨ '"' ∈ str.data ∨ '\n' ∈ str.data ∨ '\r' ∈ str.data then
        "\"" ++ String.mk (doubleQuotes str.data) ++ "\""
      else str

/-- The field-mapping of `app.post('/log')` (src/server.js:117-131):
builds the inserted row from the payload, substituting JS `||` defaults. -/
def normalize (p : Payload) : Record where
  timestamp := p.timestamp.getD ""
  session_id := p.sessionId.getD ""
  student_name := jsOrStr (p.student.bind Student.name) "Anonymous"
  class_name := jsOrStr (p.student.bind Student.className) "Not specified"
  question_number := jsOrNullInt p.questionNumber
  interaction_type := p.type
  question := jsOrStr p.question ""
  ai_response := jsOrStr p.response ""
  category := jsOrStr p.category ""
  risk_level := jsOrStr (p.analysis.bind Analysis.riskLevel) ""
  flags := (p.analysis.bind Analysis.flags).getD []
  word_count := jsOrNullInt (p.analysis.bind Analysis.wordCount)
  analysis_details := stringifyAnalysis p.analysis

/-- The validation guard of `app.post('/log')` (src/server.js:101):
`!logEntry.sessionId || !logEntry.timestamp`. -/
def validPayload (p : Payload) : Bool :=
  !(isFalsyStr p.sessionId || isFalsyStr p.timestamp)

/-- HTTP responses of the modelled handlers. -/
structure Stats where
  totalInteractions : Nat
  sessions : Nat
  uniqueStudents : Nat
  categories : List (String × Nat)
  deriving Repr, DecidableEq

inductive Output where
  | logOk : Output
  | badRequest : Output
  | csv (content : String) : Output
  | stats (s : Stats) : Output
  | statusOut (totalLogs : Nat) : Output
  | healthy : Output
  | records (rows : List Record) : Output
  deriving Repr, DecidableEq

/-- HTTP status code of a response. -/
def Output.statusCode : Output → Nat
  | .badRequest => 400
  | _ => 200

/-- Handler `app.post('/log')` (src/server.js:96-148): reject when `sessionId`
or `timestamp` is missing/empty, otherwise insert the normalized row. -/
def postLog (st : List Record) (p : Payload) : List Record × Output :=
  if !(validPayload p) then (st, Output.badRequest)
  else (st ++ [normalize p], Output.logOk)

/-- Per-category counts of `app.get('/stats')` (src/server.js:259-271):
`GROUP BY category` over the rows with a non-null, non-empty category. -/
def categoryCounts (st : List Record) : List (String × Nat) :=
  (((st.map Record.category).filter (fun c => c ≠ "")).dedup).map
    (fun c => (c, (st.filter (fun r => r.category = c)).length))

/-- Handler `app.get('/stats')` (src/server.js:251-286): the four aggregation
queries over `student_interactions`. -/
def statsHandler (st : List Record) : Stats where
  totalInteractions := st.length
  sessions := ((st.map Record.session_id).dedup).length
  uniqueStudents :=
    (((st.filter (fun r => r.student_name ≠ "Anonymous")).map
        Record.student_name).dedup).length
  categories := categoryCounts st

/-- Insert a record into a timestamp-sorted list, keeping it sorted. -/
def insertRec (r : Record) : List Record → List Record
  | [] => [r]
  | x :: xs =>
      if x.timestamp ≤ r.timestamp then x :: insertRec r xs
      else r :: x :: xs

/-- The query `SELECT * ... ORDER BY timestamp ASC` (src/server.js:155-158),
modelled as insertion sort on the timestamp string. -/
def sortByTimestamp : List Record → List Record
  | [] => []
  | r :: rs => insertRec r (sortByTimestamp rs)

/-- The fixed header of the CSV export (src/server.js:163-167). -/
def headers : List String :=
  ["Timestamp", "Session_ID", "Student_Name", "Class", "Question_Number",
   "Interaction_Type", "Question", "AI_Response_Preview", "Category",
   "Risk_Level", "Flags", "Word_Count", "Analysis_Details"]

/-- Model of `row.ai_response ? row.ai_response.substring(0, limit) : ''`
(src/server.js:180 with limit 200, src/server.js:228 with limit 500). -/
def responsePreview (limit : Nat) (r : Record) : String :=
  if r.ai_response = "" then "" else String.mk (r.ai_response.data.take limit)

/-- One exported CSV row (src/server.js:172-186): the 13 escaped field
values in fixed order.  `limit` is the response-preview length (200 for
`/csv`, 500 for `/csv/download`). -/
def csvRow (limit : Nat) (r : Record) : List String :=
  [escapeCSV (some r.timestamp),
   escapeCSV (some r.session_id),
   escapeCSV (some r.student_name),
   escapeCSV (some r.class_name),
   escapeCSV (r.question_number.map toString),
   escapeCSV r.interaction_type,
   escapeCSV (some r.question),
   escapeCSV (some (responsePreview limit r)),
   escapeCSV (some r.category),
   escapeCSV (some r.risk_level),
   escapeCSV (some (String.intercalate "; " r.flags)),
   escapeCSV (r.word_count.map toString),
   escapeCSV (some r.analysis_details)]

/-- The CSV document built by `app.get('/csv')` /
`app.get('/csv/download')` (src/server.js:169-188, 217-236): header line
then one line per row of the timestamp-ordered result set, accumulated
by `forEach (csvContent += row.join(',') + newline)`. -/
def csvContent (limit : Nat) (st : List Record) : String :=
  (sortByTimestamp st).foldl
    (fun acc r => acc ++ (String.intercalate "," (csvRow limit r) ++ "\n"))
    (String.intercalate "," headers ++ "\n")

/-- Handler `app.get('/student/:name')` (src/server.js:289-312). -/
def studentHandler (st : List Record) (name : String) : List Record :=
  sortByTimestamp (st.filter (fun r => r.student_name = name))

/-- Handler `app.get('/class/:className')` (src/server.js:315-338). -/
def classHandler (st : List Record) (name : String) : List Record :=
  sortByTimestamp (st.filter (fun r => r.class_name = name))

/-- One request of the HTTP surface that touches the record store. -/
inductive Request where
  | log (p : Payload) : Request
  | getCsv : Request
  | getCsvDownload : Request
  | getStats : Request
  | getStatus : Request
  | getHealth : Request
  | getStudent (name : String) : Request
  | getClass (name : String) : Request
  deriving Repr, DecidableEq

/-- One request-response step of the server: the new store contents and
the response.  Only `POST /log` writes; every other handler only reads. -/
def step (st : List Record) : Request → List Record × Output
  | .log p => postLog st p
  | .getCsv => (st, .csv (csvContent 200 st))
  | .getCsvDownload => (st, .csv (csvContent 500 st))
  | .getStats => (st, .stats (statsHandler st))
  | .getStatus => (st, .statusOut st.length)
  | .getHealth => (st, .healthy)
  | .getStudent n => (st, .records (studentHandler st n))
  | .getClass n => (st, .records (classHandler st n))

/-- The store contents after serving a sequence of requests. -/
def run (st : List Record) : List Request → List Record
  | [] => st
  | q :: qs => run (step st q).1 qs

/-- Modelled from the spec: the correct RFC-4180-style field decoder the
round-trip claim compares against ("strip the outer quotes, collapse
each doubled double-quote back to one").  Not present in src/server.js,
which only encodes. -/
def collapseQuotes : List Char → List Char
  | [] => []
  | [c] => [c]
  | c :: d :: rest =>
      if c = '"' ∧ d = '"' then '"' :: collapseQuotes rest
      else c :: collapseQuotes (d :: rest)

/-- Modelled from the spec: decode one escaped CSV field — if the field
is wrapped in double quotes, strip them and collapse doubled quotes;
otherwise return it unchanged. -/
def unescapeCSV (s : String) : String :=
  if 2 ≤ s.data.length ∧ s.data.head? = some '"' ∧ s.data.getLast? = some '"' then
    String.mk (collapseQuotes ((s.data.drop 1).dropLast))
  else s

/-- Concatenation of a list of strings (the lines of the CSV body). -/
def concatStrings : List String → String
  | [] => ""
  | s :: rest => s ++ concatStrings rest

/-! ### Supporting lemmas -/

theorem string_mk_data (s : String) : String.mk s.data = s := by
  cases s; rfl

theorem doubleQuotes_flatMap (l : List Char) :
    doubleQuotes l = l.flatMap (fun c => if c = '"' then ['"', '"'] else [c]) := by
  induction l with
  | nil => rfl
  | cons c rest ih =>
      by_cases hc : c = '"' <;> simp [doubleQuotes, hc, ih]

theorem doubleQuotes_eq_nil_iff (l : List Char) : doubleQuotes l = [] ↔ l = [] := by
  cases l with
  | nil => simp [doubleQuotes]
  | cons c rest =>
      simp only [doubleQuotes]
      split <;> simp

theorem collapse_double (l : List Char) :
    collapseQuotes (doubleQuotes l) = l := by
  induction l with
  | nil => rfl
  | cons c rest ih =>
      by_cases hc : c = '"'
      · subst hc
        simp [doubleQuotes, collapseQuotes, ih]
      · simp only [doubleQuotes, if_neg hc]
        cases hrest : doubleQuotes rest with
        | nil =>
            have h0 : rest = [] := (doubleQuotes_eq_nil_iff rest).mp hrest
            subst h0
            simp [collapseQuotes]
        | cons d ds =>
            rw [hrest] at ih
            simp [collapseQuotes, hc, ih]

theorem foldl_append_concat (f : Record → String) (l : List Record) (acc : String) :
    l.foldl (fun a r => a ++ f r) acc = acc ++ concatStrings (l.map f) := by
  induction l generalizing acc with
  | nil => simp [concatStrings]
  | cons x xs ih =>
      simp [concatStrings, List.foldl_cons, ih, String.append_assoc]

theorem perm_insertRec (r : Record) (l : List Record) :
    (insertRec r l).Perm (r :: l) := by
  induction l with
  | nil => rfl
  | cons x xs ih =>
      by_cases hle : x.timestamp ≤ r.timestamp
      · simp only [insertRec, if_pos hle]
        exact (ih.cons x).trans (List.Perm.swap r x xs)
      · simp only [insertRec, if_neg hle]
        exact List.Perm.refl _

theorem pairwise_insertRec (r : Record) (l : List Record)
    (h : l.Pairwise (fun a b => a.timestamp ≤ b.timestamp)) :
    (insertRec r l).Pairwise (fun a b => a.timestamp ≤ b.timestamp) := by
  induction l with
  | nil => simp [insertRec]
  | cons x xs ih =>
      rcases List.pairwise_cons.mp h with ⟨hx, hxs⟩
      by_cases hle : x.timestamp ≤ r.timestamp
      · simp only [insertRec, if_pos hle]
        refine List.pairwise_cons.mpr ⟨?_, ih hxs⟩
        intro b hb
        rcases List.mem_cons.mp ((perm_insertRec r xs).mem_iff.mp hb) with hb | hb
        · exact hb ▸ hle
        · exact hx b hb
      · simp only [insertRec, if_neg hle]
        refine List.pairwise_cons.mpr ⟨?_, h⟩
        intro b hb
        rcases List.mem_cons.mp hb with hb | hb
        · exact hb ▸ le_of_not_le hle
        · exact le_trans (le_of_not_le hle) (hx b hb)

theorem sortByTimestamp_perm (l : List Record) :
    (sortByTimestamp l).Perm l := by
  induction l with
  | nil => rfl
  | cons r rs ih =>
      exact (perm_insertRec r (sortByTimestamp rs)).trans (ih.cons r)

theorem sortByTimestamp_pairwise (l : List Record) :
    (sortByTimestamp l).Pairwise (fun a b => a.timestamp ≤ b.timestamp) := by
  induction l with
  | nil => simp [sortByTimestamp]
  | cons r rs ih => exact pairwise_insertRec r _ ih

theorem filter_map_students (st : List Record) :
    (st.filter (fun r => r.student_name ≠ "Anonymous")).map Record.student_name =
      (st.map Record.student_name).filter (fun n => n ≠ "Anonymous") := by
  induction st with
  | nil => rfl
  | cons r rs ih =>
      by_cases h : r.student_name = "Anonymous" <;>
        · simp [h]
          simpa using ih

/-! ### Concrete payloads used by the scenario and witnesses -/

/-- The scenario payload of the spec:
`{sessionId:"s1", timestamp:"2024-01-01T00:00:00Z", type:"question", category:"algebra"}`. -/
def scenarioPayload : Payload where
  sessionId := some "s1"
  timestamp := some "2024-01-01T00:00:00Z"
  student := none
  questionNumber := none
  type := some "question"
  question := none
  response := none
  category := some "algebra"
  analysis := none

/-- A payload that explicitly supplies `questionNumber = 0` and
`analysis.wordCount = 0`. -/
def zeroPayload : Payload :=
  { scenarioPayload with
      questionNumber := some 0
      analysis := some { riskLevel := none, flags := none, wordCount := some 0 } }

/-- A payload with `sessionId` missing. -/
def invalidPayload : Payload :=
  { scenarioPayload with sessionId := none }

/-! ### Claim theorems -/

/-- C1: `escapeCSV` returns the empty string on null/undefined; when the
stringified value contains a comma, a double-quote, or a newline
character (LF or CR) it returns the value wrapped in double quotes with
every internal double-quote doubled; otherwise it returns the value
unchanged. -/
theorem escapeCSV_correct :
    escapeCSV none = "" ∧
    ∀ s : String,
      escapeCSV (some s) =
        if ',' ∈ s.data ∨ '"' ∈ s.data ∨ '\n' ∈ s.data ∨ '\r' ∈ s.data then
          "\"" ++
            String.mk (s.data.flatMap fun c => if c = '"' then ['"', '"'] else [c])
            ++ "\""
        else s := by
  refine ⟨rfl, fun s => ?_⟩
  simp only [escapeCSV, doubleQuotes_flatMap]

/-- C2: a POST /log payload whose `sessionId` or `timestamp` is missing
or empty is rejected with status 400 and the stored record set is
unchanged. -/
theorem postLog_rejects_invalid (st : List Record) (p : Payload)
    (h : isFalsyStr p.sessionId = true ∨ isFalsyStr p.timestamp = true) :
    (postLog st p).1 = st ∧ (postLog st p).2 = Output.badRequest ∧
      (postLog st p).2.statusCode = 400 := by
  have hv : validPayload p = false := by
    rcases h with h | h <;> simp [validPayload, h]
  simp [postLog, hv, Output.statusCode]

/-- Witness for C2: the concrete payload with `sessionId` missing. -/
theorem postLog_rejects_invalid_witness :
    (isFalsyStr invalidPayload.sessionId = true ∨
      isFalsyStr invalidPayload.timestamp = true) ∧
    (postLog [] invalidPayload).1 = [] ∧
    (postLog [] invalidPayload).2 = Output.badRequest ∧
    (postLog [] invalidPayload).2.statusCode = 400 :=
  ⟨Or.inl (by decide), postLog_rejects_invalid [] invalidPayload (Or.inl (by decide))⟩

/-- C6: decoding an `escapeCSV`-encoded field whose value contained a
comma with the correct RFC-4180-style parser (strip the outer quotes,
collapse doubled double-quotes) restores the original value. -/
theorem escapeCSV_roundtrip (s : String) (h : ',' ∈ s.data) :
    unescapeCSV (escapeCSV (some s)) = s := by
  have hcond : ',' ∈ s.data ∨ '"' ∈ s.data ∨ '\n' ∈ s.data ∨ '\r' ∈ s.data :=
    Or.inl h
  simp only [escapeCSV, if_pos hcond]
  have hdata : ("\"" ++ String.mk (doubleQuotes s.data) ++ "\"").data
      = '"' :: (doubleQuotes s.data ++ ['"']) := by
    simp [String.data_append]
  simp only [unescapeCSV, hdata]
  rw [if_pos ⟨by simp, rfl, by rw [← List.cons_append, List.getLast?_concat]⟩]
  simp only [List.drop_succ_cons, List.drop_zero, List.dropLast_concat,
    collapse_double, string_mk_data]

/-- Witness for C6 at the concrete value "math, science". -/
theorem escapeCSV_roundtrip_witness :
    unescapeCSV (escapeCSV (some "math, science")) = "math, science" :=
  escapeCSV_roundtrip "math, science" (by decide)

/-- C10: a POST /log payload that explicitly supplies `questionNumber = 0`
or `analysis.wordCount = 0` has the zero coerced to null by the falsy
`|| null` default: the persisted column is null, never 0. -/
theorem zero_coerced_to_none (p : Payload) :
    (p.questionNumber = some 0 → (normalize p).question_number = none) ∧
    (p.analysis.bind Analysis.wordCount = some 0 →
      (normalize p).word_count = none) := by
  constructor
  · intro h
    simp [normalize, jsOrNullInt, h]
  · intro h
    simp [normalize, jsOrNullInt, h]

/-- Witness for C10: the concrete payload supplying both zeros. -/
theorem zero_coerced_to_none_witness :
    zeroPayload.questionNumber = some 0 ∧
    zeroPayload.analysis.bind Analysis.wordCount = some 0 ∧
    (normalize zeroPayload).question_number = none ∧
    (normalize zeroPayload).word_count = none :=
  ⟨rfl, rfl, (zero_coerced_to_none zeroPayload).1 rfl,
    (zero_coerced_to_none zeroPayload).2 rfl⟩

/-- C3: GET /stats reports the stored-record count, the distinct-session
count, the count of deduplicated student names excluding the "Anonymous"
placeholder, and per-category record counts; the single-record scenario
yields totalInteractions=1, sessions=1, categories={algebra:1}. -/
theorem stats_correct (st : List Record) :
    (statsHandler st).totalInteractions = st.length ∧
    (statsHandler st).sessions = ((st.map Record.session_id).dedup).length ∧
    (statsHandler st).uniqueStudents =
      (((st.map Record.student_name).filter
          (fun n => n ≠ "Anonymous")).dedup).length ∧
    (∀ c k, (c, k) ∈ (statsHandler st).categories ↔
      (c ≠ "" ∧ c ∈ st.map Record.category ∧
        k = (st.filter (fun r => r.category = c)).length)) ∧
    statsHandler (postLog [] scenarioPayload).1 =
      { totalInteractions := 1, sessions := 1, uniqueStudents := 0,
        categories := [("algebra", 1)] } := by
  refine ⟨rfl, rfl, ?_, ?_, by decide⟩
  · simp only [statsHandler]
    rw [filter_map_students]
  · intro c k
    simp only [statsHandler, categoryCounts, List.mem_map, List.mem_dedup,
      List.mem_filter]
    constructor
    · rintro ⟨a, ⟨⟨ha, hane⟩, heq⟩⟩
      rcases Prod.mk.injEq .. ▸ heq with ⟨rfl, rfl⟩
      exact ⟨by simpa using hane, ha, rfl⟩
    · rintro ⟨hne, hc, rfl⟩
      exact ⟨c, ⟨hc, by simpa using hne⟩, rfl⟩

/-- C5: for every valid POST /log payload the persisted record receives
type-safe defaults: missing student.name → "Anonymous", missing
student.class → "Not specified", missing questionNumber and wordCount →
null, missing flags → empty sequence, missing analysis → a blob that
serializes to "{}". -/
theorem normalize_defaults (st : List Record) (p : Payload)
    (h : validPayload p = true) :
    (postLog st p).1 = st ++ [normalize p] ∧
    (p.student.bind Student.name = none →
      (normalize p).student_name = "Anonymous") ∧
    (p.student.bind Student.className = none →
      (normalize p).class_name = "Not specified") ∧
    (p.questionNumber = none → (normalize p).question_number = none) ∧
    (p.analysis.bind Analysis.wordCount = none →
      (normalize p).word_count = none) ∧
    (p.analysis.bind Analysis.flags = none → (normalize p).flags = []) ∧
    (p.analysis = none → (normalize p).analysis_details = "{}") := by
  refine ⟨by simp [postLog, h], ?_, ?_, ?_, ?_, ?_, ?_⟩ <;>
    · intro he
      simp [normalize, jsOrStr, jsOrNullInt, stringifyAnalysis, he]

/-- Witness for C5: the scenario payload, which omits every optional
field. -/
theorem normalize_defaults_witness :
    validPayload scenarioPayload = true ∧
    (postLog [] scenarioPayload).1 = [] ++ [normalize scenarioPayload] ∧
    (normalize scenarioPayload).student_name = "Anonymous" ∧
    (normalize scenarioPayload).class_name = "Not specified" ∧
    (normalize scenarioPayload).question_number = none ∧
    (normalize scenarioPayload).word_count = none ∧
    (normalize scenarioPayload).flags = [] ∧
    (normalize scenarioPayload).analysis_details = "{}" := by
  have h := normalize_defaults [] scenarioPayload (by decide)
  exact ⟨by decide, h.1, h.2.1 rfl, h.2.2.1 rfl, h.2.2.2.1 rfl,
    h.2.2.2.2.1 rfl, h.2.2.2.2.2.1 rfl, h.2.2.2.2.2.2 rfl⟩

/-- C4: the CSV export is the fixed 13-column header line, then exactly
one line per stored record in timestamp-ascending order, each line the
comma-join of the escaped field values terminated by one newline, the
Flags field joined by "; ". -/
theorem csv_export_correct (limit : Nat) (st : List Record) :
    csvContent limit st =
      "Timestamp,Session_ID,Student_Name,Class,Question_Number,Interaction_Type,Question,AI_Response_Preview,Category,Risk_Level,Flags,Word_Count,Analysis_Details\n"
        ++ concatStrings ((sortByTimestamp st).map
            (fun r => String.intercalate "," (csvRow limit r) ++ "\n")) ∧
    headers.length = 13 ∧
    (sortByTimestamp st).Perm st ∧
    (sortByTimestamp st).Pairwise (fun a b => a.timestamp ≤ b.timestamp) ∧
    (sortByTimestamp st).length = st.length ∧
    (∀ r, (csvRow limit r).length = 13) ∧
    (∀ r, (csvRow limit r)[10]? =
      some (escapeCSV (some (String.intercalate "; " r.flags)))) := by
  refine ⟨?_, rfl, sortByTimestamp_perm st, sortByTimestamp_pairwise st,
    (sortByTimestamp_perm st).length_eq, fun r => rfl, fun r => rfl⟩
  simp only [csvContent]
  rw [foldl_append_concat]
  congr 1

/-- C7: the AI_Response_Preview field is the stored response truncated
to 200 characters on GET /csv and 500 on GET /csv/download, and is the
empty string when the response is absent. -/
theorem response_preview_correct (st : List Record) (r : Record)
    (p : Payload) (hp : p.response = none) :
    responsePreview 200 r = String.mk (r.ai_response.data.take 200) ∧
    responsePreview 500 r = String.mk (r.ai_response.data.take 500) ∧
    (responsePreview 200 r).length ≤ 200 ∧
    (responsePreview 500 r).length ≤ 500 ∧
    (normalize p).ai_response = "" ∧
    responsePreview 200 (normalize p) = "" ∧
    responsePreview 500 (normalize p) = "" ∧
    (csvRow 200 r)[7]? = some (escapeCSV (some (responsePreview 200 r))) ∧
    (csvRow 500 r)[7]? = some (escapeCSV (some (responsePreview 500 r))) ∧
    (step st Request.getCsv).2 = Output.csv (csvContent 200 st) ∧
    (step st Request.getCsvDownload).2 = Output.csv (csvContent 500 st) := by
  have hresp : (normalize p).ai_response = "" := by
    simp [normalize, jsOrStr, hp]
  have hpre : ∀ n, responsePreview n r = String.mk (r.ai_response.data.take n) := by
    intro n
    by_cases h : r.ai_response = "" <;> simp [responsePreview, h]
  have hlen : ∀ n, (String.mk (r.ai_response.data.take n)).length ≤ n := by
    intro n
    show (r.ai_response.data.take n).length ≤ n
    rw [List.length_take]
    exact min_le_left _ _
  refine ⟨hpre 200, hpre 500, ?_, ?_, hresp, ?_, ?_, rfl, rfl, rfl, rfl⟩
  · rw [hpre 200]; exact hlen 200
  · rw [hpre 500]; exact hlen 500
  · simp [responsePreview, hresp]
  · simp [responsePreview, hresp]

/-- Witness for C7: the scenario payload (whose response is absent) and
its normalized record, on the empty store. -/
theorem response_preview_correct_witness :
    scenarioPayload.response = none ∧
    responsePreview 200 (normalize scenarioPayload) = "" ∧
    responsePreview 500 (normalize scenarioPayload) = "" ∧
    (normalize scenarioPayload).ai_response = "" ∧
    (step [] Request.getCsv).2 = Output.csv (csvContent 200 []) ∧
    (step [] Request.getCsvDownload).2 = Output.csv (csvContent 500 []) := by
  have h := response_preview_correct [] (normalize scenarioPayload)
    scenarioPayload rfl
  exact ⟨rfl, h.2.2.2.2.2.1, h.2.2.2.2.2.2.1, h.2.2.2.2.1,
    h.2.2.2.2.2.2.2.2.2.1, h.2.2.2.2.2.2.2.2.2.2⟩

/-- Every non-log request leaves the store unchanged; a log request
leaves it unchanged or appends one record. -/
theorem step_preserves (st : List Record) (q : Request) :
    (step st q).1 = st ∨ ∃ r, (step st q).1 = st ++ [r] := by
  cases q with
  | log p =>
      by_cases h : validPayload p = true
      · exact Or.inr ⟨normalize p, by simp [step, postLog, h]⟩
      · refine Or.inl ?_
        simp only [step, postLog]
        rw [if_pos (by simp [Bool.not_eq_true] at h ⊢; exact h)]
  | getCsv => exact Or.inl rfl
  | getCsvDownload => exact Or.inl rfl
  | getStats => exact Or.inl rfl
  | getStatus => exact Or.inl rfl
  | getHealth => exact Or.inl rfl
  | getStudent n => exact Or.inl rfl
  | getClass n => exact Or.inl rfl

/-- Serving any request sequence only extends the store. -/
theorem run_extends (qs : List Request) :
    ∀ st, ∃ t, run st qs = st ++ t := by
  induction qs with
  | nil => exact fun st => ⟨[], by simp [run]⟩
  | cons q qs ih =>
      intro st
      rcases ih (step st q).1 with ⟨t, ht⟩
      rcases step_preserves st q with h | ⟨r, h⟩
      · exact ⟨t, by simp only [run]; rw [ht, h]⟩
      · exact ⟨r :: t, by simp only [run]; rw [ht, h, List.append_assoc]; rfl⟩

/-- C8: records are never modified or deleted: POST /log at most appends
one record, every other handler leaves the store unchanged, and under
any request sequence the old store is an initial segment of the new
one — the record set only grows. -/
theorem append_only (st : List Record) (q : Request) (qs : List Request) :
    ((step st q).1 = st ∨ ∃ r, (step st q).1 = st ++ [r]) ∧
    (∀ q' : Request, (∀ p, q' ≠ Request.log p) → (step st q').1 = st) ∧
    (∃ t, run st qs = st ++ t) := by
  refine ⟨step_preserves st q, ?_, run_extends qs st⟩
  intro q' hq'
  cases q' with
  | log p => exact absurd rfl (hq' p)
  | getCsv => rfl
  | getCsvDownload => rfl
  | getStats => rfl
  | getStatus => rfl
  | getHealth => rfl
  | getStudent n => rfl
  | getClass n => rfl

/-- C9: GET /stats, GET /csv and GET /csv/download are pure functions of
the stored state: repeating any of them with no intervening write
yields identical output. -/
theorem reads_deterministic (st : List Record) :
    (step (step st Request.getStats).1 Request.getStats).2
      = (step st Request.getStats).2 ∧
    (step (step st Request.getCsv).1 Request.getCsv).2
      = (step st Request.getCsv).2 ∧
    (step (step st Request.getCsvDownload).1 Request.getCsvDownload).2
      = (step st Request.getCsvDownload).2 :=
  ⟨rfl, rfl, rfl⟩

end StudentLog
